import Mathlib

/-!
Verification of the cart state synchronization core of a storefront web
client (CartContext provider, its Shopify GraphQL gateway wrappers, and the
legacy hook wrapper), as a shallow embedding in Lean 4.

The embedding mirrors the source:
* the data model (`CartLine`, `ShopifyCart`, money/cost records) follows the
  TypeScript interfaces of the CartContext module;
* core state is the provider state: `isOpen`, `cartId`, `cart`, `loading`,
  `error`, plus the localStorage cell under the key `cartId` (field
  `persisted`);
* the remote gateway is an oracle record: each call either returns a cart
  snapshot or fails with an error message (the JS layer throws `Error`
  objects whose `message` we keep);
* each operation is a function from gateway oracle and state to
  (result, new state, list of gateway calls issued); JS exceptions become
  `Except.error`.  React setState updates are modelled as immediate record
  updates, which is faithful for a single operation running to completion
  because the source never reads a state variable after setting it within
  one operation.
* for the concurrency claim, a small task machine captures the `await`
  suspension points of `addItem`, so that interleavings of several in-flight
  operations can be executed explicitly.
-/

/-- A decimal money value: amount string plus currency code. -/
structure Money where
  amount : String
  currencyCode : String
deriving Repr, DecidableEq

/-- A selected product option (name/value pair). -/
structure SelectedOption where
  name : String
  value : String
deriving Repr, DecidableEq

/-- One product image node (url, nullable alt text). -/
structure ImageNode where
  url : String
  altText : Option String
deriving Repr, DecidableEq

/-- GraphQL edge wrapper around an image node. -/
structure ImageEdge where
  node : ImageNode
deriving Repr, DecidableEq

/-- GraphQL connection of product images. -/
structure ProductImages where
  edges : List ImageEdge
deriving Repr, DecidableEq

/-- Parent product summary carried on each cart line. -/
structure ProductSummary where
  title : String
  handle : Option String
  images : ProductImages
deriving Repr, DecidableEq

/-- The merchandise (product variant) of a cart line. -/
structure Merchandise where
  id : String
  title : String
  price : Money
  selectedOptions : Option (List SelectedOption)
  product : ProductSummary
deriving Repr, DecidableEq

/-- One cart line: line identifier, quantity, merchandise details. -/
structure CartLine where
  id : String
  quantity : Int
  merchandise : Merchandise
deriving Repr, DecidableEq

/-- GraphQL edge wrapper around a cart line. -/
structure LineEdge where
  node : CartLine
deriving Repr, DecidableEq

/-- GraphQL connection of cart lines. -/
structure CartLines where
  edges : List LineEdge
deriving Repr, DecidableEq

/-- Aggregate cost of a cart: total, optional subtotal and tax. -/
structure CartCost where
  totalAmount : Money
  subtotalAmount : Option Money
  totalTaxAmount : Option Money
deriving Repr, DecidableEq

/-- The cart snapshot returned by the remote service. -/
structure ShopifyCart where
  id : String
  lines : CartLines
  cost : CartCost
  checkoutUrl : String
deriving Repr, DecidableEq

/-- State of the cart provider: the React state cells of the component plus
the localStorage cell holding the persisted cart identity (`persisted`). -/
structure CoreState where
  isOpen : Bool
  cartId : Option String
  cart : Option ShopifyCart
  loading : Bool
  error : Option String
  persisted : Option String
deriving Repr, DecidableEq

/-- Numeric value of a digit character. -/
def digitVal (c : Char) : Nat := c.toNat - 48

/-- Value of a digit string read in base 10. -/
def digitsToNat (ds : List Char) : Nat :=
  ds.foldl (fun acc c => acc * 10 + digitVal c) 0

/-- JS `parseFloat` on the decimal fragment used for money amounts: skip
leading whitespace, optional sign, integer digits, optional fraction; any
trailing garbage is ignored, and `none` stands for `NaN` (no digits at
all).  Exponent notation is not modelled; remote amounts are plain
decimals. -/
def parseFloat (s : String) : Option ℚ :=
  let cs := s.toList.dropWhile Char.isWhitespace
  let signAndRest : Bool × List Char :=
    match cs with
    | '-' :: rest => (true, rest)
    | '+' :: rest => (false, rest)
    | _ => (false, cs)
  let intDs := signAndRest.2.takeWhile Char.isDigit
  let afterInt := signAndRest.2.dropWhile Char.isDigit
  let fracDs : List Char :=
    match afterInt with
    | '.' :: rest => rest.takeWhile Char.isDigit
    | _ => []
  if intDs.isEmpty && fracDs.isEmpty then none
  else
    let q : ℚ := (digitsToNat intDs : ℚ) + (digitsToNat fracDs : ℚ) / (10 ^ fracDs.length)
    some (if signAndRest.1 then -q else q)

/-- Derived read `items`: `cart?.lines?.edges?.map(edge => edge.node) ?? []`. -/
def items (s : CoreState) : List CartLine :=
  match s.cart with
  | some c => c.lines.edges.map (fun edge => edge.node)
  | none => []

/-- Derived read `itemCount`: `items.reduce((sum, item) => sum + item.quantity, 0)`. -/
def itemCount (s : CoreState) : Int :=
  (items s).foldl (fun sum item => sum + item.quantity) 0

/-- Derived read `totalAmount`: `parseFloat` of the cart total amount string, defaulting to the string zero. -/
def totalAmount (s : CoreState) : Option ℚ :=
  parseFloat (match s.cart with
    | some c => c.cost.totalAmount.amount
    | none => "0")

/-- Derived read `checkoutUrl`: `cart?.checkoutUrl ?? null`. -/
def checkoutUrl (s : CoreState) : Option String :=
  match s.cart with
  | some c => some c.checkoutUrl
  | none => none

/-- A line input for `addCartLines`: `{ merchandiseId, quantity }`, and for
`updateCartLines`: `{ id, quantity }` — in both cases a string id and an
integer quantity, so one pair type serves both. -/
abbrev LineInput := String × Int

/-- A record of one call issued to the remote gateway. -/
inductive GwCall where
  | createCart (lines : List LineInput)
  | getCart (id : String)
  | addLines (id : String) (lines : List LineInput)
  | updateLines (id : String) (lines : List LineInput)
  | removeLines (id : String) (lineIds : List String)
deriving Repr, DecidableEq

/-- Oracle for the remote gateway: the outcome of each call the session
would issue.  `Except.error msg` stands for the JS function throwing an
`Error` with that message (a userError surfaced by the API layer, or a
transport failure).  `getCart` may additionally succeed with `none` when no
cart exists for the id. -/
structure Gateway where
  createCart : List LineInput → Except String ShopifyCart
  getCart : String → Except String (Option ShopifyCart)
  addCartLines : String → List LineInput → Except String ShopifyCart
  updateCartLines : String → List LineInput → Except String ShopifyCart
  removeCartLines : String → List String → Except String ShopifyCart

/-- Result of one core operation: the value returned (or the message of the
exception propagated) to the caller, the provider state after the
operation, and the gateway calls issued, in order. -/
abbrev OpResult (α : Type) := Except String α × CoreState × List GwCall

/-- Embedding of `getOrCreateCart` from the CartContext provider: return the in-memory
`cartId` if set; otherwise adopt a persisted id from localStorage if
present; otherwise call gateway create-cart with no lines, adopt the
returned snapshot, persist and adopt its id.  A create-cart failure is
logged and rethrown. -/
def getOrCreateCart (gw : Gateway) (s : CoreState) : OpResult String :=
  match s.cartId with
  | some cid => (Except.ok cid, s, [])
  | none =>
    match s.persisted with
    | some stored => (Except.ok stored, { s with cartId := some stored }, [])
    | none =>
      match gw.createCart [] with
      | Except.ok newCart =>
          (Except.ok newCart.id,
           { s with cart := some newCart,
                    persisted := some newCart.id,
                    cartId := some newCart.id },
           [GwCall.createCart []])
      | Except.error e => (Except.error e, s, [GwCall.createCart []])

/-- Embedding of `addItem(variantId, quantity = 1)` from the CartContext provider:
set loading, clear error, acquire a cart id via `getOrCreateCart`, call
gateway add-lines with the single `{merchandiseId, quantity}` line, adopt
the returned snapshot; on any failure record the error message and
rethrow; always clear the loading flag. -/
def addItem (gw : Gateway) (s : CoreState) (variantId : String)
    (quantity : Int := 1) : OpResult ShopifyCart :=
  let s1 := { s with loading := true, error := none }
  match getOrCreateCart gw s1 with
  | (Except.error e, s2, calls) =>
      (Except.error e, { s2 with error := some e, loading := false }, calls)
  | (Except.ok cid, s2, calls) =>
      match gw.addCartLines cid [(variantId, quantity)] with
      | Except.ok updated =>
          (Except.ok updated,
           { s2 with cart := some updated, loading := false },
           calls ++ [GwCall.addLines cid [(variantId, quantity)]])
      | Except.error e =>
          (Except.error e,
           { s2 with error := some e, loading := false },
           calls ++ [GwCall.addLines cid [(variantId, quantity)]])

/-- Embedding of `removeItem(lineId)` from the CartContext provider: throw `No cart
exists` when no in-memory cart id is set; otherwise set loading, clear
error, call gateway remove-lines with `[lineId]`, adopt the returned
snapshot; on failure record the error message and rethrow; clear the
loading flag in both cases. -/
def removeItem (gw : Gateway) (s : CoreState) (lineId : String) :
    OpResult ShopifyCart :=
  match s.cartId with
  | none => (Except.error "No cart exists", s, [])
  | some cid =>
    let s1 := { s with loading := true, error := none }
    match gw.removeCartLines cid [lineId] with
    | Except.ok updated =>
        (Except.ok updated,
         { s1 with cart := some updated, loading := false },
         [GwCall.removeLines cid [lineId]])
    | Except.error e =>
        (Except.error e,
         { s1 with error := some e, loading := false },
         [GwCall.removeLines cid [lineId]])

/-- Embedding of `updateItemQuantity(lineId, quantity)` from the CartContext provider:
throw `No cart exists` when no in-memory cart id is set; delegate to
`removeItem` when the quantity is not positive; otherwise set loading,
clear error, call gateway update-lines with `[{id: lineId, quantity}]`,
adopt the returned snapshot; on failure record the error message and
rethrow; clear the loading flag. -/
def updateItemQuantity (gw : Gateway) (s : CoreState) (lineId : String)
    (quantity : Int) : OpResult ShopifyCart :=
  match s.cartId with
  | none => (Except.error "No cart exists", s, [])
  | some cid =>
    if quantity ≤ 0 then removeItem gw s lineId
    else
      let s1 := { s with loading := true, error := none }
      match gw.updateCartLines cid [(lineId, quantity)] with
      | Except.ok updated =>
          (Except.ok updated,
           { s1 with cart := some updated, loading := false },
           [GwCall.updateLines cid [(lineId, quantity)]])
      | Except.error e =>
          (Except.error e,
           { s1 with error := some e, loading := false },
           [GwCall.updateLines cid [(lineId, quantity)]])

/-- Body of the `try` block of `refreshCart`, given the state after
`setLoading(true); setError(null)` and the stored id: fetch the cart; a
non-null result is adopted together with the stored id; a null result
clears the persisted id, the in-memory id and the snapshot.  A gateway
failure propagates out of the block (to be absorbed by the `catch`). -/
def refreshCartTry (gw : Gateway) (s1 : CoreState) (stored : String) :
    Except String CoreState :=
  match gw.getCart stored with
  | Except.ok (some fetched) =>
      Except.ok { s1 with cart := some fetched, cartId := some stored }
  | Except.ok none =>
      Except.ok { s1 with persisted := none, cartId := none, cart := none }
  | Except.error e => Except.error e

/-- Embedding of `refreshCart()` from the CartContext provider (also the startup run):
with no persisted id, just clear the loading flag; otherwise set loading,
clear error and run the fetch-and-validate block; a failure of that block
is caught — the persisted id, in-memory id and snapshot are cleared and the
fixed message `Failed to fetch cart` is recorded — and never rethrown; the
loading flag is cleared in every case.  The total return type (no `Except`)
embeds the catch-all: no gateway outcome escapes as an exception. -/
def refreshCart (gw : Gateway) (s : CoreState) : CoreState × List GwCall :=
  match s.persisted with
  | none => ({ s with loading := false }, [])
  | some stored =>
    let s1 := { s with loading := true, error := none }
    match refreshCartTry gw s1 stored with
    | Except.ok s2 => ({ s2 with loading := false }, [GwCall.getCart stored])
    | Except.error _ =>
        ({ s1 with persisted := none, cartId := none, cart := none,
                   error := some "Failed to fetch cart", loading := false },
         [GwCall.getCart stored])

/-!
The GraphQL API wrappers (`createCart`, `addCartLines`, `updateCartLines`,
`removeCartLines`, `getCart`): each sends a query through `shopifyFetch`
and post-processes the transport-successful JSON response.  They are
embedded as functions of the decoded response, i.e. they describe exactly
the post-processing: throwing on a non-empty `userErrors` list, or handing
the `cart` field back. -/
namespace Api

/-- One entry of the `userErrors` list of a mutation (`field`, `message`). -/
structure UserError where
  field : Option String
  message : String
deriving Repr, DecidableEq

/-- The payload of one cart mutation field: nullable `cart` plus the
`userErrors` list. -/
structure MutationPayload where
  cart : Option ShopifyCart
  userErrors : List UserError
deriving Repr, DecidableEq

/-- A decoded GraphQL response: the `data` field. -/
structure GqlResponse (α : Type) where
  data : α
deriving Repr, DecidableEq

/-- Field `data` of a CreateCart response: the `cartCreate` field. -/
structure CartCreateData where
  cartCreate : MutationPayload
deriving Repr, DecidableEq

/-- Field `data` of an AddCartLines response: the `cartLinesAdd` field. -/
structure CartLinesAddData where
  cartLinesAdd : MutationPayload
deriving Repr, DecidableEq

/-- Field `data` of an UpdateCartLines response: the `cartLinesUpdate` field. -/
structure CartLinesUpdateData where
  cartLinesUpdate : MutationPayload
deriving Repr, DecidableEq

/-- Field `data` of a RemoveCartLines response: the `cartLinesRemove` field. -/
structure CartLinesRemoveData where
  cartLinesRemove : MutationPayload
deriving Repr, DecidableEq

/-- Field `data` of a GetCart response: the nullable `cart` field. -/
structure GetCartData where
  cart : Option ShopifyCart
deriving Repr, DecidableEq

/-- Shared shape of the four mutation wrappers: if
`payload.userErrors.length > 0` throw an `Error` carrying
`userErrors[0].message`, else return `payload.cart`. -/
def handleMutation (payload : MutationPayload) : Except String (Option ShopifyCart) :=
  match payload.userErrors with
  | [] => Except.ok payload.cart
  | e :: _ => Except.error e.message

/-- Embedding of `createCart(lines = [])` response handling: throw on userErrors, else
return `response.data.cartCreate.cart`. -/
def createCart (resp : GqlResponse CartCreateData) :
    Except String (Option ShopifyCart) :=
  handleMutation resp.data.cartCreate

/-- Embedding of `addCartLines(cartId, lines)` response handling: throw on userErrors,
else return `response.data.cartLinesAdd.cart`. -/
def addCartLines (resp : GqlResponse CartLinesAddData) :
    Except String (Option ShopifyCart) :=
  handleMutation resp.data.cartLinesAdd

/-- Embedding of `updateCartLines(cartId, lines)` response handling: throw on
userErrors, else return `response.data.cartLinesUpdate.cart`. -/
def updateCartLines (resp : GqlResponse CartLinesUpdateData) :
    Except String (Option ShopifyCart) :=
  handleMutation resp.data.cartLinesUpdate

/-- Embedding of `removeCartLines(cartId, lineIds)` response handling: throw on
userErrors, else return `response.data.cartLinesRemove.cart`. -/
def removeCartLines (resp : GqlResponse CartLinesRemoveData) :
    Except String (Option ShopifyCart) :=
  handleMutation resp.data.cartLinesRemove

/-- Embedding of `getCart(cartId)` response handling: return `response.data.cart`
unconditionally — no userErrors check, no throw, `none` when the remote
cart does not exist. -/
def getCart (resp : GqlResponse GetCartData) : Option ShopifyCart :=
  resp.data.cart

end Api

/-!
The legacy hook wrapper `useShopifyCart`: re-exports the context state and
operations, plus two deprecated stubs. -/
namespace Legacy

/-- Embedding of `clearCartId` from `useShopifyCart`: logs a deprecation warning and does
nothing else — no state cell is read or written and no gateway call is
issued, so it is the identity on the provider state. -/
def clearCartId (s : CoreState) : CoreState × List GwCall := (s, [])

/-- Embedding of `createCart` from `useShopifyCart`: logs a deprecation warning and
returns the current `cart` value of the context — no gateway call, no state
change. -/
def createCart (s : CoreState) :
    Option ShopifyCart × CoreState × List GwCall := (s.cart, s, [])

end Legacy

/-!
Interleaving semantics for concurrent `addItem` invocations.

`addItem` suspends at two `await` points against the network: inside
`getOrCreateCart` at `await createCart()`, and at
`await addCartLines(...)`.  Everything between two suspension points runs
atomically on the single JS thread.  A task records the `cartId` value its
closures captured at the render that created them (spawning reads the
then-current state, the freshest closures possible) together with its
suspension point; `localStorage` reads are always live.  A schedule spawns
tasks and resolves their pending network calls in any order. -/

/-- Where an in-flight `addItem` task is suspended. -/
inductive TaskPhase where
  | awaitingCreate (variantId : String) (qty : Int)
  | awaitingAddLines (cid : String) (variantId : String) (qty : Int)
  | finished
deriving Repr, DecidableEq

/-- One in-flight `addItem` task: the `cartId` its closures captured when it
was spawned, and its suspension point. -/
structure PendingTask where
  closureCartId : Option String
  phase : TaskPhase
deriving Repr, DecidableEq

/-- A configuration of the event loop: provider state (with localStorage),
the tasks spawned so far, and the gateway calls issued so far. -/
structure Config where
  state : CoreState
  tasks : List PendingTask
  calls : List GwCall
deriving Repr, DecidableEq

/-- Spawn an `addItem(variantId, qty)` invocation and run it up to its first
network suspension point: `setLoading(true); setError(null)`, then the
synchronous part of `getOrCreateCart` — closure `cartId` check, then live
localStorage check, then issue `createCart()`; a task that already has an
id instead issues `addCartLines` at once. -/
def spawnAddItem (cfg : Config) (variantId : String) (qty : Int) : Config :=
  let s := cfg.state
  let s1 := { s with loading := true, error := none }
  match s.cartId with
  | some cid =>
      { state := s1,
        tasks := cfg.tasks ++ [⟨some cid, TaskPhase.awaitingAddLines cid variantId qty⟩],
        calls := cfg.calls ++ [GwCall.addLines cid [(variantId, qty)]] }
  | none =>
    match s.persisted with
    | some stored =>
        { state := { s1 with cartId := some stored },
          tasks := cfg.tasks ++ [⟨none, TaskPhase.awaitingAddLines stored variantId qty⟩],
          calls := cfg.calls ++ [GwCall.addLines stored [(variantId, qty)]] }
    | none =>
        { state := s1,
          tasks := cfg.tasks ++ [⟨none, TaskPhase.awaitingCreate variantId qty⟩],
          calls := cfg.calls ++ [GwCall.createCart []] }

/-- Resolve the pending network call of task `i` with outcome `res` and run
the task to its next suspension point: a resolved `createCart` adopts and
persists the new cart and issues `addCartLines`; a resolved `addCartLines`
adopts the updated cart and clears the loading flag; a failure records the
error message and clears the loading flag. -/
def resolveTask (cfg : Config) (i : Nat) (res : Except String ShopifyCart) :
    Config :=
  match cfg.tasks.get? i with
  | some ⟨clo, TaskPhase.awaitingCreate v q⟩ =>
    (match res with
     | Except.ok newCart =>
        { state :=
            { cfg.state with
                cart := some newCart,
                persisted := some newCart.id,
                cartId := some newCart.id },
          tasks := cfg.tasks.set i ⟨clo, TaskPhase.awaitingAddLines newCart.id v q⟩,
          calls := cfg.calls ++ [GwCall.addLines newCart.id [(v, q)]] }
     | Except.error e =>
        { state := { cfg.state with error := some e, loading := false },
          tasks := cfg.tasks.set i ⟨clo, TaskPhase.finished⟩,
          calls := cfg.calls })
  | some ⟨clo, TaskPhase.awaitingAddLines _ _ _⟩ =>
    (match res with
     | Except.ok updated =>
        { state := { cfg.state with cart := some updated, loading := false },
          tasks := cfg.tasks.set i ⟨clo, TaskPhase.finished⟩,
          calls := cfg.calls }
     | Except.error e =>
        { state := { cfg.state with error := some e, loading := false },
          tasks := cfg.tasks.set i ⟨clo, TaskPhase.finished⟩,
          calls := cfg.calls })
  | _ => cfg

/-- Number of create-cart calls in a call list. -/
def countCreates (calls : List GwCall) : Nat :=
  (calls.filter (fun c => match c with
    | GwCall.createCart _ => true
    | _ => false)).length

/-- Number of tasks simultaneously suspended at `await createCart()`. -/
def countAwaitingCreate (cfg : Config) : Nat :=
  (cfg.tasks.filter (fun t => match t.phase with
    | TaskPhase.awaitingCreate _ _ => true
    | _ => false)).length

/-!
Concrete sample data used by witnesses and counterexamples. -/

/-- Sample merchandise for a line with variant id `gid://variant/1`. -/
def merchA : Merchandise :=
  ⟨"gid://variant/1", "Variant A", ⟨"10.0", "USD"⟩,
   some [⟨"Size", "M"⟩],
   ⟨"Product A", some "product-a", ⟨[⟨⟨"https://img/1", none⟩⟩]⟩⟩⟩

/-- Sample cart line with quantity 2. -/
def lineA : CartLine := ⟨"gid://line/1", 2, merchA⟩

/-- Freshly created empty cart as returned by create-cart. -/
def cartNew : ShopifyCart :=
  ⟨"gid://cart/new", ⟨[]⟩, ⟨⟨"0.0", "USD"⟩, none, none⟩,
   "https://shop.example/checkout/new"⟩

/-- Cart holding the sample line, as returned by the mutating calls. -/
def cartWithA : ShopifyCart :=
  ⟨"gid://cart/new", ⟨[⟨lineA⟩]⟩, ⟨⟨"20.0", "USD"⟩, none, none⟩,
   "https://shop.example/checkout/new"⟩

/-- Gateway on which every call succeeds. -/
def gwOk : Gateway :=
  ⟨fun _ => Except.ok cartNew,
   fun _ => Except.ok (some cartWithA),
   fun _ _ => Except.ok cartWithA,
   fun _ _ => Except.ok cartWithA,
   fun _ _ => Except.ok cartNew⟩

/-- Gateway on which add-lines fails with a remote validation message. -/
def gwAddFails : Gateway :=
  { gwOk with addCartLines := fun _ _ => Except.error "Invalid line" }

/-- Gateway on which fetch-cart reports the cart as not found. -/
def gwNotFound : Gateway :=
  { gwOk with getCart := fun _ => Except.ok none }

/-- Gateway on which fetch-cart fails with a transport error. -/
def gwNetFail : Gateway :=
  { gwOk with getCart := fun _ => Except.error "Network failure" }

/-- Initial provider state of a fresh session: nothing stored, loading. -/
def stateFresh : CoreState := ⟨false, none, none, true, none, none⟩

/-- State with a current identity and the sample cart adopted. -/
def stateWithId : CoreState :=
  ⟨false, some "gid://cart/current", some cartWithA, false, none,
   some "gid://cart/current"⟩

/-- State with a persisted identity only (e.g. mid-startup, before the
fetch resolves): localStorage holds an id, the in-memory id is unset. -/
def statePersistedOnly : CoreState :=
  ⟨false, none, none, false, none, some "gid://cart/stored"⟩

/-!
Helper lemmas shared by the claim theorems. -/

/-- Folding addition of quantities over a list equals the start value plus
the sum of the mapped quantities. -/
theorem foldl_add_quantity (l : List CartLine) (n : Int) :
    l.foldl (fun sum item => sum + item.quantity) n
      = n + (l.map (fun item => item.quantity)).sum := by
  induction l generalizing n with
  | nil => simp
  | cons x xs ih => simp [List.foldl_cons, ih, add_assoc]

/-- Derived reads depend on the state only through the snapshot: states
with equal `cart` have equal `items`, `itemCount`, `totalAmount` and
`checkoutUrl`. -/
theorem derived_of_cart_eq (s t : CoreState) (h : s.cart = t.cart) :
    items s = items t ∧ itemCount s = itemCount t
      ∧ totalAmount s = totalAmount t ∧ checkoutUrl s = checkoutUrl t := by
  refine ⟨?_, ?_, ?_, ?_⟩ <;> simp only [items, itemCount, totalAmount, checkoutUrl, h]

/-- Shape of `Api.handleMutation`: an error is thrown exactly when the
userErrors list is non-empty, the thrown message is the first message, and
an empty list hands the cart field back unchanged. -/
theorem handleMutation_spec (p : Api.MutationPayload) :
    ((∃ m, Api.handleMutation p = Except.error m) ↔ p.userErrors ≠ [])
    ∧ (∀ e es, p.userErrors = e :: es →
        Api.handleMutation p = Except.error e.message)
    ∧ (p.userErrors = [] → Api.handleMutation p = Except.ok p.cart) := by
  unfold Api.handleMutation
  cases h : p.userErrors with
  | nil => simp [h]
  | cons e es => simp [h]

/-- Fact used by the derived-read claims: parsing the default string zero
yields zero. -/
theorem parseFloat_zero : parseFloat "0" = some 0 := by
  simp +decide [parseFloat, List.dropWhile, List.takeWhile, digitsToNat, digitVal]

/-- Decoded CreateCart response with no userErrors and the fresh cart. -/
def respOkCreate : Api.GqlResponse Api.CartCreateData := ⟨⟨⟨some cartNew, []⟩⟩⟩

/-- Decoded AddCartLines response carrying one userError. -/
def respErrAdd : Api.GqlResponse Api.CartLinesAddData :=
  ⟨⟨⟨none, [⟨some "lines", "Invalid line"⟩]⟩⟩⟩

/-- Decoded UpdateCartLines response with no userErrors. -/
def respOkUpdate : Api.GqlResponse Api.CartLinesUpdateData :=
  ⟨⟨⟨some cartWithA, []⟩⟩⟩

/-- Decoded RemoveCartLines response with no userErrors. -/
def respOkRemove : Api.GqlResponse Api.CartLinesRemoveData :=
  ⟨⟨⟨some cartNew, []⟩⟩⟩

/-- Decoded GetCart response whose cart field is null. -/
def respGetNull : Api.GqlResponse Api.GetCartData := ⟨⟨none⟩⟩

/-!
Claim theorems. -/

/-- Claim C1: the spec requires that for every sequence of addItem calls
issued while no cart identity exists at most one create-cart call reaches
the gateway, and that getOrCreateCart is never evaluated twice concurrently
with no identity set.  The code has no in-progress guard: from a fresh
session (no in-memory id, nothing persisted), spawning a second addItem
before the first create-cart response resolves leaves two tasks suspended
inside the create branch and issues two create-cart calls.  This theorem
evaluates that interleaving. -/
theorem c1_concurrent_addItem_double_create :
    stateFresh.cartId = none ∧ stateFresh.persisted = none ∧
    countCreates
        ((spawnAddItem (spawnAddItem ⟨stateFresh, [], []⟩ "variant-A" 1)
            "variant-B" 1).calls) = 2 ∧
    countAwaitingCreate
        (spawnAddItem (spawnAddItem ⟨stateFresh, [], []⟩ "variant-A" 1)
          "variant-B" 1) = 2 := by
  decide

/-- Claim C2, counterexample: the claimed contract has two branches — with
a current identity, return it with no gateway call and no state change;
otherwise call create-cart.  In the state with no current identity but a
persisted one, getOrCreateCart issues no gateway call at all (create-cart
is not evaluated) and still changes the state, so the two-branch contract
is false as stated. -/
theorem c2_counterexample_persisted_branch :
    statePersistedOnly.cartId = none ∧
    (getOrCreateCart gwOk statePersistedOnly).2.2 = [] ∧
    (getOrCreateCart gwOk statePersistedOnly).2.1 ≠ statePersistedOnly := by
  decide

/-- Claim C2, amended: getOrCreateCart satisfies a three-branch contract.
With a current identity: return it unchanged, no gateway call, no state
change.  Otherwise with a persisted identity: adopt it as current and
return it, no gateway call.  Otherwise: call create-cart with no lines; on
success adopt the returned snapshot and identity, persist the identity and
return it; on failure rethrow with the state unchanged. -/
theorem c2_getOrCreateCart_contract (gw : Gateway) (s : CoreState) :
    (∀ cid, s.cartId = some cid →
        getOrCreateCart gw s = (Except.ok cid, s, []))
    ∧ (∀ stored, s.cartId = none → s.persisted = some stored →
        getOrCreateCart gw s
          = (Except.ok stored, { s with cartId := some stored }, []))
    ∧ (s.cartId = none → s.persisted = none →
        (∀ c, gw.createCart [] = Except.ok c →
            getOrCreateCart gw s
              = (Except.ok c.id,
                 { s with cart := some c, persisted := some c.id,
                          cartId := some c.id },
                 [GwCall.createCart []]))
        ∧ (∀ e, gw.createCart [] = Except.error e →
            getOrCreateCart gw s
              = (Except.error e, s, [GwCall.createCart []]))) := by
  refine ⟨?_, ?_, fun h1 h2 => ⟨?_, ?_⟩⟩
  · intro cid h
    simp [getOrCreateCart, h]
  · intro stored h1 h2
    simp [getOrCreateCart, h1, h2]
  · intro c hc
    simp [getOrCreateCart, h1, h2, hc]
  · intro e he
    simp [getOrCreateCart, h1, h2, he]

/-- Witness for C2 at a concrete state holding a current identity. -/
theorem c2_witness :
    getOrCreateCart gwOk stateWithId
      = (Except.ok "gid://cart/current", stateWithId, []) :=
  (c2_getOrCreateCart_contract gwOk stateWithId).1 "gid://cart/current" rfl

/-- Claim C3: for every line id and every quantity q ≤ 0, from any core
state and any gateway, updateItemQuantity(lineId, q) is the same operation
as removeItem(lineId): same returned value or failure, same resulting
state, same gateway calls.  A non-positive quantity means deletion. -/
theorem c3_nonpositive_update_is_remove (gw : Gateway) (s : CoreState)
    (lineId : String) (q : Int) (hq : q ≤ 0) :
    updateItemQuantity gw s lineId q = removeItem gw s lineId := by
  cases h : s.cartId with
  | none => simp [updateItemQuantity, removeItem, h]
  | some cid => simp [updateItemQuantity, h, hq]

/-- Witness for C3 at quantity 0 on a state with a current identity. -/
theorem c3_witness :
    updateItemQuantity gwOk stateWithId "gid://line/1" 0
      = removeItem gwOk stateWithId "gid://line/1" :=
  c3_nonpositive_update_is_remove gwOk stateWithId "gid://line/1" 0 (by decide)

/-- Claim C4: the derived reads are pure functions of the snapshot —
itemCount is the sum of the quantities of the current lines (0 with no
snapshot), totalAmount is the numeric parse of the total cost amount of the
snapshot (parse of the string zero, i.e. 0, with no snapshot), and
checkoutUrl is the handoff URL of the snapshot (absent with no
snapshot). -/
theorem c4_derived_reads (s : CoreState) :
    itemCount s = ((items s).map (fun item => item.quantity)).sum
    ∧ (s.cart = none →
        items s = [] ∧ itemCount s = 0 ∧ totalAmount s = some 0
          ∧ checkoutUrl s = none)
    ∧ (∀ c, s.cart = some c →
        items s = c.lines.edges.map (fun edge => edge.node)
          ∧ totalAmount s = parseFloat c.cost.totalAmount.amount
          ∧ checkoutUrl s = some c.checkoutUrl) := by
  refine ⟨?_, ?_, ?_⟩
  · simpa using foldl_add_quantity (items s) 0
  · intro h
    refine ⟨?_, ?_, ?_, ?_⟩ <;>
      simp [items, itemCount, totalAmount, checkoutUrl, h, parseFloat_zero]
  · intro c h
    refine ⟨?_, ?_, ?_⟩ <;> simp [items, totalAmount, checkoutUrl, h]

/-- Witness for C4 on the state holding the sample one-line cart. -/
theorem c4_witness :
    items stateWithId = cartWithA.lines.edges.map (fun edge => edge.node)
      ∧ totalAmount stateWithId = parseFloat cartWithA.cost.totalAmount.amount
      ∧ checkoutUrl stateWithId = some cartWithA.checkoutUrl :=
  (c4_derived_reads stateWithId).2.2 cartWithA rfl

/-- Claim C5, counterexample: the claim says that whenever the add-lines
gateway call of an addItem fails, the snapshot is exactly what it was
before the call.  From a fresh session, addItem first creates a cart (and
adopts its snapshot) and only then calls add-lines; when add-lines fails
the snapshot has still changed from none to the newly created cart. -/
theorem c5_counterexample_create_then_fail :
    (addItem gwAddFails stateFresh "variant-A" 1).1
        = Except.error "Invalid line"
    ∧ (addItem gwAddFails stateFresh "variant-A" 1).2.1.cart
        ≠ stateFresh.cart :=
  ⟨rfl, by decide⟩

/-- Claim C5, amended: for every addItem call whose gateway add-lines call
fails and whose identity acquisition did not create a new cart (a current
identity existed, or a persisted identity was adopted), the snapshot and
every derived read are unchanged, the shared error state is set to the
failure message, the loading flag is cleared, and the failure is
propagated to the caller; the only gateway call made is the failing
add-lines call. -/
theorem c5_addItem_failure_preserves_snapshot (gw : Gateway) (s : CoreState)
    (v : String) (q : Int) (cid : String) (e : String)
    (hid : s.cartId = some cid ∨ (s.cartId = none ∧ s.persisted = some cid))
    (hfail : gw.addCartLines cid [(v, q)] = Except.error e) :
    (addItem gw s v q).1 = Except.error e
    ∧ (addItem gw s v q).2.1.cart = s.cart
    ∧ (addItem gw s v q).2.1.error = some e
    ∧ (addItem gw s v q).2.1.loading = false
    ∧ (addItem gw s v q).2.2 = [GwCall.addLines cid [(v, q)]]
    ∧ items (addItem gw s v q).2.1 = items s
    ∧ itemCount (addItem gw s v q).2.1 = itemCount s
    ∧ totalAmount (addItem gw s v q).2.1 = totalAmount s
    ∧ checkoutUrl (addItem gw s v q).2.1 = checkoutUrl s := by
  rcases hid with h | ⟨h1, h2⟩
  · simp [addItem, getOrCreateCart, h, hfail,
          items, itemCount, totalAmount, checkoutUrl]
  · simp [addItem, getOrCreateCart, h1, h2, hfail,
          items, itemCount, totalAmount, checkoutUrl]

/-- Witness for C5 on a state with a current identity and a gateway whose
add-lines call fails. -/
theorem c5_witness :
    (addItem gwAddFails stateWithId "gid://variant/1" 1).2.1.cart
        = stateWithId.cart
    ∧ (addItem gwAddFails stateWithId "gid://variant/1" 1).2.1.loading
        = false :=
  ⟨(c5_addItem_failure_preserves_snapshot gwAddFails stateWithId
      "gid://variant/1" 1 "gid://cart/current" "Invalid line"
      (Or.inl rfl) rfl).2.1,
   (c5_addItem_failure_preserves_snapshot gwAddFails stateWithId
      "gid://variant/1" 1 "gid://cart/current" "Invalid line"
      (Or.inl rfl) rfl).2.2.2.1⟩

/-- Claim C6: with no current identity, removeItem — and
updateItemQuantity for a positive quantity — fails with the no-active-cart
condition (the thrown message is `No cart exists`) while making no gateway
call and leaving the entire state, including snapshot, identity and
persisted identity, unchanged. -/
theorem c6_no_identity_rejects (gw : Gateway) (s : CoreState)
    (lineId : String) (h : s.cartId = none) :
    removeItem gw s lineId = (Except.error "No cart exists", s, [])
    ∧ ∀ q : Int, 0 < q →
        updateItemQuantity gw s lineId q
          = (Except.error "No cart exists", s, []) := by
  constructor
  · simp [removeItem, h]
  · intro q _
    simp [updateItemQuantity, h]

/-- Witness for C6 on the fresh state with no identity. -/
theorem c6_witness :
    removeItem gwOk stateFresh "gid://line/1"
        = (Except.error "No cart exists", stateFresh, [])
    ∧ updateItemQuantity gwOk stateFresh "gid://line/1" 3
        = (Except.error "No cart exists", stateFresh, []) :=
  ⟨(c6_no_identity_rejects gwOk stateFresh "gid://line/1" rfl).1,
   (c6_no_identity_rejects gwOk stateFresh "gid://line/1" rfl).2 3 (by decide)⟩

/-- Claim C7: starting a refreshCart run with a persisted identity for
which the gateway fetch succeeds with null, the run clears the persisted
identity, the current identity and the snapshot (empty/no-cart state),
leaves the error state unset and clears the loading flag; the only gateway
call is the fetch. -/
theorem c7_not_found_clears_identity (gw : Gateway) (s : CoreState)
    (stored : String) (hp : s.persisted = some stored)
    (hfetch : gw.getCart stored = Except.ok none) :
    refreshCart gw s
      = ({ s with persisted := none, cartId := none, cart := none,
                  loading := false, error := none },
         [GwCall.getCart stored]) := by
  simp [refreshCart, refreshCartTry, hp, hfetch]

/-- Witness for C7 on the state persisting an id the gateway reports as
not found. -/
theorem c7_witness :
    refreshCart gwNotFound statePersistedOnly
      = (⟨false, none, none, false, none, none⟩,
         [GwCall.getCart "gid://cart/stored"]) :=
  c7_not_found_clears_identity gwNotFound statePersistedOnly
    "gid://cart/stored" rfl rfl

/-- Claim C8: refreshCart never propagates an exception — its embedding is
a total function into states, with no error component, for every gateway
outcome — and it always clears the loading flag; when the fetch fails with
a remote error, the persisted identity, the current identity and the
snapshot are cleared, the error state is set and the loading flag is
cleared. -/
theorem c8_refreshCart_absorbs_failures (gw : Gateway) (s : CoreState) :
    (refreshCart gw s).1.loading = false
    ∧ (∀ stored e, s.persisted = some stored →
        gw.getCart stored = Except.error e →
        refreshCart gw s
          = ({ s with persisted := none, cartId := none, cart := none,
                      error := some "Failed to fetch cart",
                      loading := false },
             [GwCall.getCart stored])) := by
  constructor
  · cases hp : s.persisted with
    | none => simp [refreshCart, hp]
    | some stored =>
      cases hg : gw.getCart stored with
      | error e => simp [refreshCart, refreshCartTry, hp, hg]
      | ok o => cases o <;> simp [refreshCart, refreshCartTry, hp, hg]
  · intro stored e hp hg
    simp [refreshCart, refreshCartTry, hp, hg]

/-- Witness for C8 on the persisted state and the gateway whose fetch
fails with a transport error. -/
theorem c8_witness :
    refreshCart gwNetFail statePersistedOnly
      = (⟨false, none, none, false, some "Failed to fetch cart", none⟩,
         [GwCall.getCart "gid://cart/stored"]) :=
  (c8_refreshCart_absorbs_failures gwNetFail statePersistedOnly).2
    "gid://cart/stored" "Network failure" rfl rfl

/-- Claim C9: on a transport-successful response, each of the four gateway
mutations throws an error carrying the message of the first userError
exactly when the userErrors list is non-empty, and otherwise returns the
cart field of the response unchanged; getCart never throws and returns the
cart field of the response, null when no cart exists. -/
theorem c9_api_error_contract
    (r1 : Api.GqlResponse Api.CartCreateData)
    (r2 : Api.GqlResponse Api.CartLinesAddData)
    (r3 : Api.GqlResponse Api.CartLinesUpdateData)
    (r4 : Api.GqlResponse Api.CartLinesRemoveData)
    (r5 : Api.GqlResponse Api.GetCartData) :
    (((∃ m, Api.createCart r1 = Except.error m)
        ↔ r1.data.cartCreate.userErrors ≠ [])
      ∧ (∀ e es, r1.data.cartCreate.userErrors = e :: es →
          Api.createCart r1 = Except.error e.message)
      ∧ (r1.data.cartCreate.userErrors = [] →
          Api.createCart r1 = Except.ok r1.data.cartCreate.cart))
    ∧ (((∃ m, Api.addCartLines r2 = Except.error m)
        ↔ r2.data.cartLinesAdd.userErrors ≠ [])
      ∧ (∀ e es, r2.data.cartLinesAdd.userErrors = e :: es →
          Api.addCartLines r2 = Except.error e.message)
      ∧ (r2.data.cartLinesAdd.userErrors = [] →
          Api.addCartLines r2 = Except.ok r2.data.cartLinesAdd.cart))
    ∧ (((∃ m, Api.updateCartLines r3 = Except.error m)
        ↔ r3.data.cartLinesUpdate.userErrors ≠ [])
      ∧ (∀ e es, r3.data.cartLinesUpdate.userErrors = e :: es →
          Api.updateCartLines r3 = Except.error e.message)
      ∧ (r3.data.cartLinesUpdate.userErrors = [] →
          Api.updateCartLines r3 = Except.ok r3.data.cartLinesUpdate.cart))
    ∧ (((∃ m, Api.removeCartLines r4 = Except.error m)
        ↔ r4.data.cartLinesRemove.userErrors ≠ [])
      ∧ (∀ e es, r4.data.cartLinesRemove.userErrors = e :: es →
          Api.removeCartLines r4 = Except.error e.message)
      ∧ (r4.data.cartLinesRemove.userErrors = [] →
          Api.removeCartLines r4 = Except.ok r4.data.cartLinesRemove.cart))
    ∧ Api.getCart r5 = r5.data.cart :=
  ⟨handleMutation_spec r1.data.cartCreate,
   handleMutation_spec r2.data.cartLinesAdd,
   handleMutation_spec r3.data.cartLinesUpdate,
   handleMutation_spec r4.data.cartLinesRemove,
   rfl⟩

/-- Witness for C9: a clean create response is returned unchanged, and an
add response carrying a userError throws its first message. -/
theorem c9_witness :
    Api.createCart respOkCreate = Except.ok (some cartNew)
    ∧ Api.addCartLines respErrAdd = Except.error "Invalid line" :=
  ⟨(c9_api_error_contract respOkCreate respErrAdd respOkUpdate respOkRemove
      respGetNull).1.2.2 rfl,
   (c9_api_error_contract respOkCreate respErrAdd respOkUpdate respOkRemove
      respGetNull).2.1.2.1 ⟨some "lines", "Invalid line"⟩ [] rfl⟩

/-- Claim C10: the legacy wrapper stubs are pure no-ops on cart state —
clearCartId changes neither the persisted identity, the in-memory identity,
the snapshot nor any derived read, and createCart makes no gateway call and
returns the current snapshot with the state unchanged. -/
theorem c10_legacy_stubs_are_noops (s : CoreState) :
    Legacy.clearCartId s = (s, [])
    ∧ Legacy.createCart s = (s.cart, s, [])
    ∧ (Legacy.clearCartId s).1.persisted = s.persisted
    ∧ (Legacy.clearCartId s).1.cartId = s.cartId
    ∧ (Legacy.clearCartId s).1.cart = s.cart
    ∧ items (Legacy.clearCartId s).1 = items s
    ∧ itemCount (Legacy.clearCartId s).1 = itemCount s
    ∧ totalAmount (Legacy.clearCartId s).1 = totalAmount s
    ∧ checkoutUrl (Legacy.clearCartId s).1 = checkoutUrl s
    ∧ (Legacy.createCart s).1 = s.cart
    ∧ (Legacy.createCart s).2.2 = [] :=
  ⟨rfl, rfl, rfl, rfl, rfl, rfl, rfl, rfl, rfl, rfl, rfl⟩
